import Mathlib

/-!
Verification of the telemetry pipeline of the `patients` repository.

The TypeScript services are shallowly embedded as executable Lean
definitions.  JavaScript `undefined`-able string fields are `Option String`;
JS truthiness on strings (where both `undefined` and `""` are falsy) is the
`truthy` predicate below.  Asynchronous fallible calls (`await` on a promise
that may reject) are `Except String α`: `.error` models a rejected promise
(a thrown exception), `.ok` a resolved one.  Payload fields typed `any` in
the source and never inspected by the code under verification (`vitals`,
threshold ranges) are carried as uninterpreted strings.  Fresh values the
code draws from the environment (`uuidv4()`, `new Date().toISOString()`)
are explicit parameters.
-/

namespace Patients

/-- JavaScript truthiness of an optional string: `undefined` and the empty
string are falsy, every other string is truthy. -/
def truthy : Option String → Bool
  | none => false
  | some s => !(s == "")

/-- Retry loop shared by `RegistryService.callWithRetry` (enrichment service,
src/unnamed/part_004 lines 225-255) and `KafkaService.produceRawTelemetry`
(src/unnamed/part_013 lines 175-211): attempts `op attempt` for
`attempt = first, first+1, ...` while fuel lasts, returning the first
success; once the fuel is exhausted the last error (or the initial default
message when no attempt ran) is thrown.  The inter-attempt delays of the
source are timing-only and not modelled. -/
def retryLoop (op : Nat → Except String α) (attempt : Nat) (lastError : String) :
    Nat → Except String α
  | 0 => Except.error lastError
  | fuel + 1 =>
    match op attempt with
    | Except.ok a => Except.ok a
    | Except.error e => retryLoop op (attempt + 1) e fuel

/-- RegistryService.callWithRetry (enrichment service): attempts 1..maxRetries,
throwing `lastError || new Error(operationName + ' failed')` at the end. -/
def callWithRetry (maxRetries : Nat) (op : Nat → Except String α)
    (operationName : String) : Except String α :=
  retryLoop op 1 (operationName ++ " failed") maxRetries

/-- Outcome of one gRPC registry call attempt as observed by the callback in
the enrichment service's RegistryService (src/unnamed/part_004): either a
transport-level gRPC error (with `code === NOT_FOUND` distinguished), or a
response carrying a registry status and, on success, a decoded payload. -/
inductive RpcAttempt (α : Type) where
  | grpcNotFound
  | grpcOtherError (msg : String)
  | response (status : Nat) (payload : α)

/-- Callback body shared by GetDevice / GetPatient / GetThresholdProfile in
the enrichment service's RegistryService: a gRPC NOT_FOUND error resolves
`null`; any other gRPC error rejects; registry status 1 resolves the payload,
status 2 resolves `null`, any other status rejects. -/
def resolveRpc : RpcAttempt α → Except String (Option α)
  | RpcAttempt.grpcNotFound => Except.ok none
  | RpcAttempt.grpcOtherError msg => Except.error msg
  | RpcAttempt.response status payload =>
    if status == 1 then Except.ok (some payload)
    else if status == 2 then Except.ok none
    else Except.error ("Registry returned status: " ++ toString status)

/-- Device entity as decoded by the enrichment service's RegistryService. -/
structure Device where
  device_id : String
  device_type : Option String
  patient_id : Option String
  status : Option Nat
  deriving Repr, DecidableEq

/-- Patient entity as decoded by the enrichment service's RegistryService
(gender 0=UNSPECIFIED, 1=MALE, 2=FEMALE, 3=OTHER). -/
structure Patient where
  patient_id : String
  age : Option Nat
  gender : Option Nat
  deriving Repr, DecidableEq

/-- Threshold profile as decoded by the enrichment service's RegistryService;
the per-metric ranges are `any`-typed payloads, carried uninterpreted. -/
structure ThresholdProfile where
  profile_id : Option String
  patient_id : Option String
  device_id : Option String
  heart_rate : Option String
  blood_pressure : Option String
  temperature : Option String
  oxygen_saturation : Option String
  respiratory_rate : Option String
  deriving Repr, DecidableEq

namespace EnrichmentRegistry

/-- RegistryService.getDevice of the enrichment service (src/unnamed/part_004
lines 257-318): returns null when the registry is disabled or the client is
not connected; otherwise runs the gRPC call under callWithRetry, each attempt
resolved by the callback modelled in `resolveRpc`. -/
def getDevice (registryEnabled isConnected : Bool) (maxRetries : Nat)
    (attempts : Nat → RpcAttempt Device) : Except String (Option Device) :=
  if registryEnabled = false then Except.ok none
  else if isConnected = false then Except.ok none
  else callWithRetry maxRetries (fun attempt => resolveRpc (attempts attempt)) "GetDevice"

end EnrichmentRegistry

/-- NormalizedTelemetryEvent as declared in
services/telemetry-enrichment/src/enrichment/enrichment.service.ts lines
6-17; `trace_id` is not declared in the interface but is read through an
`as any` cast at line 133, so it is an optional field here. -/
structure NormalizedTelemetryEvent where
  event_id : String
  event_type : String
  version : Option String
  timestamp : String
  source_event_id : Option String
  device_id : String
  patient_id : Option String
  vitals : String
  validation_status : Option String
  trace_id : Option String
  deriving Repr, DecidableEq

/-- Patient profile embedded in an enriched event. -/
structure PatientProfile where
  age : Option Nat
  sex : Option String
  deriving Repr, DecidableEq

/-- Thresholds object built at enrichment.service.ts lines 109-115 by copying
the five range fields of the threshold profile. -/
structure Thresholds where
  heart_rate : Option String
  blood_pressure : Option String
  temperature : Option String
  oxygen_saturation : Option String
  respiratory_rate : Option String
  deriving Repr, DecidableEq

/-- EnrichedTelemetryEvent as declared in enrichment.service.ts lines 19-39.
Conditionally spread fields (`orphan`, `patientProfile`, `thresholds`) are a
`Bool` (absent means false) and `Option`s (absent means `none`); the
`enrichment_metadata` object is flattened into its two fields. -/
structure EnrichedTelemetryEvent where
  event_id : String
  trace_id : String
  event_type : String
  version : String
  timestamp : String
  source_event_id : String
  device_id : String
  patient_id : Option String
  orphan : Bool
  patientProfile : Option PatientProfile
  thresholds : Option Thresholds
  vitals : String
  enriched_at : String
  enrichment_sources : List String
  deriving Repr, DecidableEq

/-- EnrichmentService.mapGenderToString (enrichment.service.ts lines
175-190). -/
def mapGenderToString : Option Nat → Option String
  | none => none
  | some 1 => some "male"
  | some 2 => some "female"
  | some 3 => some "other"
  | some _ => some "unknown"

/-- Resolved outcomes of the three registry lookups available to one
`enrichTelemetry` call: each is the settled promise of the corresponding
RegistryService method (`.error` = the method threw after its retries,
`.ok none` = resolved null, `.ok (some x)` = resolved an entity). -/
structure RegistryLookups where
  getDevice : Except String (Option Device)
  getPatient : String → Except String (Option Patient)
  getThresholdProfile : String → String → Except String (Option ThresholdProfile)

/-- Fresh environment values drawn by one `enrichTelemetry` call. -/
structure EnrichFresh where
  eventId : String
  traceUuid : String
  now : String

/-- Step 1 of EnrichmentService.enrichTelemetry (lines 57-78): adopt the
device's patient_id when the device resolved and its patient_id is truthy;
otherwise keep the input's patient_id and mark orphan when that is falsy. -/
def resolvePatient (device : Option Device) (inputPid : Option String) :
    Option String × Bool :=
  match device with
  | some d =>
    if truthy d.patient_id then (d.patient_id, false)
    else (inputPid, !truthy inputPid)
  | none => (inputPid, !truthy inputPid)

/-- Thresholds copied from a resolved threshold profile (lines 109-115). -/
def mkThresholds (tp : ThresholdProfile) : Thresholds :=
  { heart_rate := tp.heart_rate
    blood_pressure := tp.blood_pressure
    temperature := tp.temperature
    oxygen_saturation := tp.oxygen_saturation
    respiratory_rate := tp.respiratory_rate }

/-- Step 2 of enrichTelemetry (lines 85-129): the inner try block fetches the
patient and then the thresholds; a throw from either lookup is caught and
keeps whatever was assigned before the throw (a getPatient throw skips the
threshold lookup entirely). -/
def fetchProfiles (reg : RegistryLookups) (pid did : String) :
    Option PatientProfile × Option Thresholds × List String :=
  match reg.getPatient pid with
  | Except.error _ => (none, none, [])
  | Except.ok patient? =>
    let profile : Option PatientProfile :=
      match patient? with
      | some p => some { age := p.age, sex := mapGenderToString p.gender }
      | none => none
    let sources : List String :=
      match patient? with
      | some _ => ["patient_registry"]
      | none => []
    match reg.getThresholdProfile pid did with
    | Except.error _ => (profile, none, sources)
    | Except.ok none => (profile, none, sources)
    | Except.ok (some tp) => (profile, some (mkThresholds tp), sources ++ ["threshold_registry"])

/-- Guarded step 2 of enrichTelemetry (line 85): lookups (2)-(3) run only
when a truthy patient id is available and the event is not orphan. -/
def enrichProfiles (ev : NormalizedTelemetryEvent) (reg : RegistryLookups)
    (device : Option Device) : Option PatientProfile × Option Thresholds × List String :=
  if truthy (resolvePatient device ev.patient_id).1
      && !(resolvePatient device ev.patient_id).2 then
    fetchProfiles reg ((resolvePatient device ev.patient_id).1.getD "") ev.device_id
  else (none, none, [])

/-- Steps 2-3 of enrichTelemetry once getDevice has resolved `device`: build
the enriched event of lines 135-152.  The local variables `patientId` /
`orphan` / the step-2 results of the source are written as shared
subexpressions. -/
def enrichBody (ev : NormalizedTelemetryEvent) (reg : RegistryLookups)
    (fresh : EnrichFresh) (device : Option Device) : EnrichedTelemetryEvent :=
  { event_id := fresh.eventId
    trace_id := if truthy ev.trace_id then ev.trace_id.getD "" else "trace_" ++ fresh.traceUuid
    event_type := "telemetry.enriched"
    version := if truthy ev.version then ev.version.getD "" else "1.0.0"
    timestamp := fresh.now
    source_event_id := ev.event_id
    device_id := ev.device_id
    patient_id :=
      if truthy (resolvePatient device ev.patient_id).1 then
        (resolvePatient device ev.patient_id).1
      else none
    orphan := (resolvePatient device ev.patient_id).2
    patientProfile := (enrichProfiles ev reg device).1
    thresholds := (enrichProfiles ev reg device).2.1
    vitals := ev.vitals
    enriched_at := fresh.now
    enrichment_sources :=
      if (enrichProfiles ev reg device).2.2.isEmpty then ["none"]
      else (enrichProfiles ev reg device).2.2 }

/-- EnrichmentService.enrichTelemetry (enrichment.service.ts lines 50-173).
The getDevice await at line 62 is outside any inner try, so its throw reaches
the outer catch which logs and rethrows (lines 165-172): the result is
`.error` and no enriched event is produced.  `.ok ev` means `ev` was handed
to `kafkaProducer.produceEnrichedTelemetry`. -/
def enrichTelemetry (ev : NormalizedTelemetryEvent) (reg : RegistryLookups)
    (fresh : EnrichFresh) : Except String EnrichedTelemetryEvent :=
  match reg.getDevice with
  | Except.error e => Except.error e
  | Except.ok device => Except.ok (enrichBody ev reg fresh device)

/-- Outcome of one `eachMessage` invocation as kafkajs sees it: a resolved
handler lets kafkajs resolve the message's offset and autocommit it, while a
rejected (throwing) handler leaves the offset uncommitted so the message is
retried / redelivered. -/
inductive EachMessageOutcome where
  | completed
  | threw
  deriving Repr, DecidableEq

/-- Try block of the `eachMessage` callback shared by the enrichment
consumer (src/unnamed/part_004 lines 91-120) and the incident-service
consumer (services/incident-service/src/kafka/kafka-consumer.service.ts
lines 144-174): a missing value returns early, JSON.parse may throw, and the
handler (when set) may throw. -/
def eachMessageBody (value : Option String) (parse : String → Except String α)
    (handler : Option (α → Except String Unit)) : Except String Unit :=
  match value with
  | none => Except.ok ()
  | some v =>
    match parse v with
    | Except.error e => Except.error e
    | Except.ok event =>
      match handler with
      | none => Except.ok ()
      | some h => h event

/-- Catch clause of the eachMessage callback: its catch logs and
deliberately does not rethrow ("Don't throw - allow consumer to continue
processing other messages"), so whether the try block resolved or threw, the
callback itself resolves. -/
def eachMessage (value : Option String) (parse : String → Except String α)
    (handler : Option (α → Except String Unit)) : EachMessageOutcome :=
  match eachMessageBody value parse handler with
  | Except.ok _ => EachMessageOutcome.completed
  | Except.error _ => EachMessageOutcome.completed

/-- Kafkajs autocommit semantics for a consumed message: the input offset is
committed exactly when `eachMessage` resolves. -/
def offsetCommitted (value : Option String) (parse : String → Except String α)
    (handler : Option (α → Except String Unit)) : Bool :=
  eachMessage value parse handler == EachMessageOutcome.completed

namespace Gateway

/-- Outcome of the single GetDevice gRPC call made by the gateway's
RegistryService.verifyDevice: either a transport error (unreachable peer,
deadline, ...) or a response with a registry status. -/
inductive VerifyRpc where
  | grpcError (msg : String)
  | response (status : Nat)
  deriving Repr, DecidableEq

/-- RegistryService.verifyDevice of the gateway
(services/telemetry-gateway/src/registry/registry.service.ts lines 58-102):
returns true when verification is disabled or the client is not connected; on
a gRPC error resolves true ("If registry is unavailable, allow the request
through"); otherwise true exactly for registry status 1 (STATUS_SUCCESS). -/
def verifyDevice (registryEnabled isConnected : Bool) (rpc : VerifyRpc) : Bool :=
  if registryEnabled = false then true
  else if isConnected = false then true
  else
    match rpc with
    | VerifyRpc.grpcError _ => true
    | VerifyRpc.response status => status == 1

/-- TelemetryDto of the gateway with its nested metrics/meta objects
flattened; metric values are JSON numbers modelled as rationals. -/
structure TelemetryDto where
  deviceId : String
  timestamp : Option String
  hr : Option Rat
  spo2 : Option Rat
  temp : Option Rat
  battery : Option Rat
  firmware : Option String

/-- One entry of the measurements array of a raw event. -/
structure Measurement where
  metric : String
  value : Rat
  unit : String
  deriving DecidableEq

/-- RawTelemetry event built by TelemetryService.transformToKafkaEvent; the
optional metadata object is flattened into its two fields. -/
structure RawTelemetryEvent where
  event_id : String
  trace_id : String
  event_type : String
  version : String
  timestamp : String
  device_id : String
  measurements : List Measurement
  battery_level : Option Rat
  firmware_version : Option String
  deriving DecidableEq

/-- Measurements array built at src/unnamed/part_013 lines 47-71: one entry
per metric present (JS `!== undefined && !== null`), with fixed units
`bpm` / `percent` / `fahrenheit`. -/
def dtoMeasurements (dto : TelemetryDto) : List Measurement :=
  (match dto.hr with
   | some v => [{ metric := "heart_rate", value := v, unit := "bpm" }]
   | none => []) ++
  (match dto.spo2 with
   | some v => [{ metric := "oxygen_saturation", value := v, unit := "percent" }]
   | none => []) ++
  (match dto.temp with
   | some v => [{ metric := "temperature", value := v, unit := "fahrenheit" }]
   | none => [])

/-- TelemetryService.transformToKafkaEvent (src/unnamed/part_013 lines
41-96): mints `evt_` and `trace_` identifiers, throws when no metric is
present, defaults a falsy timestamp to the current instant, and keeps
firmware only when truthy. -/
def transformToKafkaEvent (dto : TelemetryDto) (uuidEvent uuidTrace now : String) :
    Except String RawTelemetryEvent :=
  let measurements := dtoMeasurements dto
  if measurements.isEmpty then Except.error "At least one metric must be provided"
  else Except.ok
    { event_id := "evt_" ++ uuidEvent
      trace_id := "trace_" ++ uuidTrace
      event_type := "telemetry.raw"
      version := "1.0.0"
      timestamp := if truthy dto.timestamp then dto.timestamp.getD "" else now
      device_id := dto.deviceId
      measurements := measurements
      battery_level := dto.battery
      firmware_version := if truthy dto.firmware then dto.firmware else none }

/-- KafkaService.produceRawTelemetry (src/unnamed/part_013 lines 166-212):
throws when the producer is not connected; otherwise retries the send up to
3 attempts and finally throws `lastError` or the default message. -/
def produceRawTelemetry (isConnected : Bool) (send : Nat → Except String Unit) :
    Except String Unit :=
  if isConnected = false then Except.error "Kafka producer is not connected"
  else retryLoop send 1 "Failed to produce event to Kafka" 3

/-- TelemetryService.processTelemetry (src/unnamed/part_013 lines 16-39):
rejects with "Device ... not found in registry" when verification failed,
then transforms and produces; a throw from either step propagates to the
caller.  `.ok eventId` is the successful result object's eventId. -/
def processTelemetry (dto : TelemetryDto) (deviceVerified : Bool)
    (produce : RawTelemetryEvent → Except String Unit)
    (uuidEvent uuidTrace now : String) : Except String String :=
  if deviceVerified = false then
    Except.error ("Device " ++ dto.deviceId ++ " not found in registry")
  else
    match transformToKafkaEvent dto uuidEvent uuidTrace now with
    | Except.error e => Except.error e
    | Except.ok event =>
      match produce event with
      | Except.error e => Except.error e
      | Except.ok _ => Except.ok event.event_id

/-- HTTP response surface of TelemetryController.receiveTelemetry. -/
structure HttpResponse where
  status : Nat
  success : Bool
  eventId : Option String
  message : String
  deriving Repr, DecidableEq

/-- TelemetryController.receiveTelemetry
(services/telemetry-gateway/src/telemetry/telemetry.controller.ts lines
9-26): a resolved processTelemetry yields 200 {success:true, eventId}; any
throw whatsoever is converted to a BadRequestException, an HTTP 400 with
{success:false, message}. -/
def receiveTelemetry (result : Except String String) : HttpResponse :=
  match result with
  | Except.ok eventId =>
    { status := 200, success := true, eventId := some eventId
      message := "Telemetry received and processed" }
  | Except.error msg =>
    { status := 400, success := false, eventId := none, message := msg }

/-- Character-list match of `pat` at the head of `s`. -/
def charsMatchFrom : List Char → List Char → Bool
  | _, [] => true
  | [], _ :: _ => false
  | c :: cs, p :: ps => c == p && charsMatchFrom cs ps

/-- Character-list containment of `pat` anywhere in `s`. -/
def charsContain (s pat : List Char) : Bool :=
  match s with
  | [] => charsMatchFrom [] pat
  | c :: rest => charsMatchFrom (c :: rest) pat || charsContain rest pat

/-- Substring test used to model the JS `error.message.includes(...)`. -/
def messageIncludes (msg pat : String) : Bool :=
  charsContain msg.data pat.data

/-- Error-to-status mapping of TelemetryGrpcController.sendMeasurements
(telemetry-grpc.controller.ts lines 31-37): messages containing "not found"
map to 3 (DEVICE_NOT_FOUND), containing "validation" to 2
(VALIDATION_ERROR), anything else to 4 (INTERNAL_ERROR). -/
def classifyGrpcError (msg : String) : Nat :=
  if messageIncludes msg "not found" then 3
  else if messageIncludes msg "validation" then 2
  else 4

/-- gRPC response surface of TelemetryGrpcController.sendMeasurements. -/
structure GrpcResponse where
  status : Nat
  message : String
  event_id : String
  deriving Repr, DecidableEq

/-- TelemetryGrpcController.sendMeasurements (telemetry-grpc.controller.ts
lines 12-47): success maps to status 1 with the event id; a throw maps to
the classified status with an empty event id. -/
def sendMeasurements (result : Except String String) : GrpcResponse :=
  match result with
  | Except.ok eventId =>
    { status := 1, message := "Measurements received and processed", event_id := eventId }
  | Except.error msg =>
    { status := classifyGrpcError msg, message := msg, event_id := "" }

/-- Kafkajs client retry options as configured by the gateway KafkaService. -/
structure KafkaRetryConfig where
  retries : Nat
  initialRetryTime : Nat
  multiplier : Nat
  maxRetryTime : Nat
  deriving Repr, DecidableEq

/-- Kafkajs producer options as configured by the gateway KafkaService. -/
structure ProducerConfig where
  maxInFlightRequests : Nat
  idempotent : Bool
  transactionTimeout : Nat
  deriving Repr, DecidableEq

/-- Retry block of the gateway KafkaService's KafkaConfig (src/unnamed/
part_013 lines 111-120). -/
def gatewayKafkaRetryConfig : KafkaRetryConfig :=
  { retries := 8, initialRetryTime := 100, multiplier := 2, maxRetryTime := 30000 }

/-- ProducerConfig of the gateway KafkaService (src/unnamed/part_013 lines
124-128). -/
def gatewayProducerConfig : ProducerConfig :=
  { maxInFlightRequests := 1, idempotent := true, transactionTimeout := 30000 }

/-- Backoff delay before retry n under a kafkajs retry configuration
(exponential in the multiplier from initialRetryTime, capped at
maxRetryTime; kafkajs jitter ignored). -/
def kafkaRetryTime (c : KafkaRetryConfig) (n : Nat) : Nat :=
  min (c.initialRetryTime * c.multiplier ^ n) c.maxRetryTime

end Gateway

/-- Modelled from the spec: the Normalizer service's implementation is not
under src/ (services/telemetry-normalizer holds only a README).  Spec
section 4.2 step 5: "Envelope construction. New `event_id`;
`source_event_id` = input `event_id`; `trace_id` copied;
`event_type="telemetry.normalized"`."  Only the envelope is modelled; the
normalized vitals, validation status and normalized timestamp are abstract
parameters. -/
def normalizeEnvelope (raw : Gateway.RawTelemetryEvent) (freshEventId : String)
    (vitals : String) (validationStatus : Option String) (normTimestamp : String) :
    NormalizedTelemetryEvent :=
  { event_id := freshEventId
    event_type := "telemetry.normalized"
    version := some raw.version
    timestamp := normTimestamp
    source_event_id := some raw.event_id
    device_id := raw.device_id
    patient_id := none
    vitals := vitals
    validation_status := validationStatus
    trace_id := some raw.trace_id }

/-! Helper lemmas shared by the claim theorems. -/

/-- Strings of the form `trace_<uuid>` are nonempty. -/
theorem trace_append_ne_empty (u : String) : ("trace_" ++ u) ≠ "" := by
  intro h
  have hd : ("trace_" ++ u).data = ("" : String).data := by rw [h]
  rw [String.data_append] at hd
  simp at hd

/-- When getDevice resolves, enrichTelemetry emits the event built by
enrichBody. -/
theorem enrichTelemetry_ok (ev : NormalizedTelemetryEvent) (reg : RegistryLookups)
    (fresh : EnrichFresh) (device : Option Device)
    (hd : reg.getDevice = Except.ok device) :
    enrichTelemetry ev reg fresh = Except.ok (enrichBody ev reg fresh device) := by
  unfold enrichTelemetry
  rw [hd]

/-- When getDevice resolves, every emitted event is an enrichBody value. -/
theorem enrichTelemetry_out (ev : NormalizedTelemetryEvent) (reg : RegistryLookups)
    (fresh : EnrichFresh) (out : EnrichedTelemetryEvent)
    (h : enrichTelemetry ev reg fresh = Except.ok out) :
    ∃ device, reg.getDevice = Except.ok device ∧ out = enrichBody ev reg fresh device := by
  unfold enrichTelemetry at h
  cases hd : reg.getDevice with
  | error e => rw [hd] at h; exact absurd h (by simp)
  | ok device =>
    rw [hd] at h
    exact ⟨device, rfl, by injection h with h'; exact h'.symm⟩

/-- Orphan flag of the built event is the second component of
resolvePatient. -/
theorem enrichBody_orphan_eq (ev : NormalizedTelemetryEvent) (reg : RegistryLookups)
    (fresh : EnrichFresh) (device : Option Device) :
    (enrichBody ev reg fresh device).orphan = (resolvePatient device ev.patient_id).2 := rfl

/-- Patient id of the built event. -/
theorem enrichBody_patient_id (ev : NormalizedTelemetryEvent) (reg : RegistryLookups)
    (fresh : EnrichFresh) (device : Option Device) :
    (enrichBody ev reg fresh device).patient_id =
      (if truthy (resolvePatient device ev.patient_id).1 then
        (resolvePatient device ev.patient_id).1 else none) := rfl

/-- Trace id of the built event. -/
theorem enrichBody_trace_id (ev : NormalizedTelemetryEvent) (reg : RegistryLookups)
    (fresh : EnrichFresh) (device : Option Device) :
    (enrichBody ev reg fresh device).trace_id =
      (if truthy ev.trace_id then ev.trace_id.getD "" else "trace_" ++ fresh.traceUuid) := rfl

/-- Fields of the built event for an orphan input: the profile lookups are
not consulted and the metadata degrades to the `none` sentinel source. -/
theorem enrichBody_orphan_fields (ev : NormalizedTelemetryEvent) (reg : RegistryLookups)
    (fresh : EnrichFresh) (device : Option Device)
    (h : (resolvePatient device ev.patient_id).2 = true) :
    (enrichBody ev reg fresh device).patientProfile = none
    ∧ (enrichBody ev reg fresh device).thresholds = none
    ∧ (enrichBody ev reg fresh device).enrichment_sources = ["none"] := by
  simp [enrichBody, enrichProfiles, h]

/-- An orphan input makes enrichBody independent of the patient and
threshold lookups. -/
theorem enrichBody_indep (ev : NormalizedTelemetryEvent) (reg reg' : RegistryLookups)
    (fresh : EnrichFresh) (device : Option Device)
    (h : (resolvePatient device ev.patient_id).2 = true) :
    enrichBody ev reg fresh device = enrichBody ev reg' fresh device := by
  simp [enrichBody, enrichProfiles, h]

/-- Unresolved-device predicate of claim C3: the device is not found, or it
carries no (truthy) patient id. -/
def deviceUnresolved : Option Device → Bool
  | none => true
  | some d => !truthy d.patient_id

/-- An unresolved device keeps the input patient id and derives the orphan
flag from it (enrichment.service.ts lines 69-78). -/
theorem resolvePatient_unresolved (device : Option Device) (ipid : Option String)
    (h : deviceUnresolved device = true) :
    resolvePatient device ipid = (ipid, !truthy ipid) := by
  cases device with
  | none => rfl
  | some d =>
    have hp : truthy d.patient_id = false := by
      simpa [deviceUnresolved] using h
    simp [resolvePatient, hp]

/-! Claim theorems. -/

/-- C1 (counterexample): a concrete consumed message whose handler raises is
nevertheless acknowledged — the eachMessage callback of the consuming stages
swallows the handler's exception, so kafkajs commits the input offset,
contrary to the claim that a raising handler leaves the offset
uncommitted. -/
theorem c1_counterexample :
    (fun _ => (Except.error "handler failure" : Except String Unit) : Unit → Except String Unit) ()
      = Except.error "handler failure"
    ∧ offsetCommitted (some "event json") (fun _ => Except.ok ())
        (some (fun _ => (Except.error "handler failure" : Except String Unit))) = true :=
  ⟨rfl, rfl⟩

/-- C1 (amended): for every consumed message, parse outcome and handler, the
eachMessage callback of the consuming stage resolves (its catch logs and
deliberately does not rethrow), so the input offset is committed and the
message is not redelivered — even when the handler raises. -/
theorem c1_amended_always_commits (value : Option String)
    (parse : String → Except String α) (handler : Option (α → Except String Unit)) :
    offsetCommitted value parse handler = true := by
  unfold offsetCommitted eachMessage
  cases eachMessageBody value parse handler <;> rfl

/-- C2 (counterexample): with a connected Registry whose GetDevice gRPC call
fails (non-NOT_FOUND) on every retry attempt, getDevice throws the last
error, and enrichTelemetry on an input without patient_id rethrows it: no
enriched event (orphan or otherwise) is emitted, contrary to the claim that
a Registry failing all lookups after retries still yields an orphan event
with enrichment_sources = ["none"]. -/
theorem c2_counterexample :
    EnrichmentRegistry.getDevice true true 3 (fun _ => RpcAttempt.grpcOtherError "14 UNAVAILABLE")
      = Except.error "14 UNAVAILABLE"
    ∧ enrichTelemetry
        { event_id := "evt-n-2", event_type := "telemetry.normalized", version := some "1.0.0"
          timestamp := "2024-01-15T10:30:00.000Z", source_event_id := some "evt-r-2"
          device_id := "D1", patient_id := none, vitals := "hr:72"
          validation_status := some "valid", trace_id := some "trace-abc" }
        { getDevice := Except.error "14 UNAVAILABLE"
          getPatient := fun _ => Except.error "14 UNAVAILABLE"
          getThresholdProfile := fun _ _ => Except.error "14 UNAVAILABLE" }
        { eventId := "evt-e-2", traceUuid := "u-2", now := "2024-01-15T10:30:01.000Z" }
      = Except.error "14 UNAVAILABLE" :=
  ⟨rfl, rfl⟩

/-- C2 (amended): a Registry that is unreachable in the sense that the
enrichment client is disabled or never connected makes getDevice resolve
null, and then the Enricher still emits an enriched event — marked orphan
with enrichment_metadata.enrichment_sources = ["none"] when the input
carries no patient_id; failures of the GetPatient / GetThresholdProfile
lookups never prevent emission.  But when a connected client's GetDevice
throws after all retries, enrichTelemetry rethrows and no event is
emitted. -/
theorem c2_amended_unreachable_degrades_to_orphan (ev : NormalizedTelemetryEvent)
    (reg : RegistryLookups) (fresh : EnrichFresh) (enabled : Bool) (maxRetries : Nat)
    (attempts : Nat → RpcAttempt Device) :
    EnrichmentRegistry.getDevice enabled false maxRetries attempts = Except.ok none
    ∧ (∀ device, reg.getDevice = Except.ok device →
        enrichTelemetry ev reg fresh = Except.ok (enrichBody ev reg fresh device))
    ∧ (reg.getDevice = Except.ok none → truthy ev.patient_id = false →
        ∀ out, enrichTelemetry ev reg fresh = Except.ok out →
          out.orphan = true ∧ out.enrichment_sources = ["none"]) := by
  refine ⟨?_, ?_, ?_⟩
  · cases enabled <;> simp [EnrichmentRegistry.getDevice]
  · intro device hd
    exact enrichTelemetry_ok ev reg fresh device hd
  · intro hd hpid out hout
    rw [enrichTelemetry_ok ev reg fresh none hd] at hout
    injection hout with hout
    subst hout
    have ho : (resolvePatient (none : Option Device) ev.patient_id).2 = true := by
      simp [resolvePatient, hpid]
    exact ⟨(enrichBody_orphan_eq ev reg fresh none).trans ho,
      (enrichBody_orphan_fields ev reg fresh none ho).2.2⟩

/-- C2 (witness): with getDevice resolving null (for instance an unconnected
client) and both remaining lookups throwing, a patient-less input is still
emitted, orphan-marked, with sources ["none"]. -/
theorem c2_witness :
    enrichTelemetry
        { event_id := "evt-n-2w", event_type := "telemetry.normalized", version := some "1.0.0"
          timestamp := "t", source_event_id := some "evt-r-2w", device_id := "D9"
          patient_id := none, vitals := "v", validation_status := none, trace_id := some "trace-2w" }
        { getDevice := Except.ok none
          getPatient := fun _ => Except.error "14 UNAVAILABLE"
          getThresholdProfile := fun _ _ => Except.error "14 UNAVAILABLE" }
        { eventId := "evt-e-2w", traceUuid := "u-2w", now := "t2" }
      = Except.ok (enrichBody
        { event_id := "evt-n-2w", event_type := "telemetry.normalized", version := some "1.0.0"
          timestamp := "t", source_event_id := some "evt-r-2w", device_id := "D9"
          patient_id := none, vitals := "v", validation_status := none, trace_id := some "trace-2w" }
        { getDevice := Except.ok none
          getPatient := fun _ => Except.error "14 UNAVAILABLE"
          getThresholdProfile := fun _ _ => Except.error "14 UNAVAILABLE" }
        { eventId := "evt-e-2w", traceUuid := "u-2w", now := "t2" } none)
    ∧ (enrichBody
        { event_id := "evt-n-2w", event_type := "telemetry.normalized", version := some "1.0.0"
          timestamp := "t", source_event_id := some "evt-r-2w", device_id := "D9"
          patient_id := none, vitals := "v", validation_status := none, trace_id := some "trace-2w" }
        { getDevice := Except.ok none
          getPatient := fun _ => Except.error "14 UNAVAILABLE"
          getThresholdProfile := fun _ _ => Except.error "14 UNAVAILABLE" }
        { eventId := "evt-e-2w", traceUuid := "u-2w", now := "t2" } none).orphan = true := by
  have h := c2_amended_unreachable_degrades_to_orphan
    { event_id := "evt-n-2w", event_type := "telemetry.normalized", version := some "1.0.0"
      timestamp := "t", source_event_id := some "evt-r-2w", device_id := "D9"
      patient_id := none, vitals := "v", validation_status := none, trace_id := some "trace-2w" }
    { getDevice := Except.ok none
      getPatient := fun _ => Except.error "14 UNAVAILABLE"
      getThresholdProfile := fun _ _ => Except.error "14 UNAVAILABLE" }
    { eventId := "evt-e-2w", traceUuid := "u-2w", now := "t2" }
    true 3 (fun _ => RpcAttempt.grpcNotFound)
  have hok := h.2.1 none rfl
  exact ⟨hok, (h.2.2 rfl rfl _ hok).1⟩

/-- C3: the Enricher resolves the patient exactly as claimed: a resolved
device with a (truthy) patient_id is adopted; an unresolved device (not
found, or without patient_id) keeps the input's patient_id when one is
present (and the event is not orphan); otherwise the event is marked
orphan=true and the GetPatient / GetThresholdProfile lookups are skipped —
formalized as: the emitted event does not depend on those two lookups. -/
theorem c3_patient_resolution (ev : NormalizedTelemetryEvent) (reg : RegistryLookups)
    (fresh : EnrichFresh) :
    (∀ d, reg.getDevice = Except.ok (some d) → truthy d.patient_id = true →
      ∀ out, enrichTelemetry ev reg fresh = Except.ok out →
        out.patient_id = d.patient_id ∧ out.orphan = false)
    ∧ (∀ device, reg.getDevice = Except.ok device → deviceUnresolved device = true →
        truthy ev.patient_id = true →
        ∀ out, enrichTelemetry ev reg fresh = Except.ok out →
          out.patient_id = ev.patient_id ∧ out.orphan = false)
    ∧ (∀ device, reg.getDevice = Except.ok device → deviceUnresolved device = true →
        truthy ev.patient_id = false →
        (∀ out, enrichTelemetry ev reg fresh = Except.ok out → out.orphan = true)
        ∧ (∀ reg' : RegistryLookups, reg'.getDevice = reg.getDevice →
            enrichTelemetry ev reg' fresh = enrichTelemetry ev reg fresh)) := by
  refine ⟨?_, ?_, ?_⟩
  · intro d hd hpid out hout
    rw [enrichTelemetry_ok ev reg fresh (some d) hd] at hout
    injection hout with hout
    subst hout
    have hres : resolvePatient (some d) ev.patient_id = (d.patient_id, false) := by
      simp [resolvePatient, hpid]
    constructor
    · rw [enrichBody_patient_id, hres]
      simp [hpid]
    · rw [enrichBody_orphan_eq, hres]
  · intro device hd hunres hpid out hout
    rw [enrichTelemetry_ok ev reg fresh device hd] at hout
    injection hout with hout
    subst hout
    have hres := resolvePatient_unresolved device ev.patient_id hunres
    constructor
    · rw [enrichBody_patient_id, hres]
      simp [hpid]
    · rw [enrichBody_orphan_eq, hres]
      simp [hpid]
  · intro device hd hunres hpid
    have hres := resolvePatient_unresolved device ev.patient_id hunres
    have horph : (resolvePatient device ev.patient_id).2 = true := by
      rw [hres]; simp [hpid]
    constructor
    · intro out hout
      rw [enrichTelemetry_ok ev reg fresh device hd] at hout
      injection hout with hout
      subst hout
      rw [enrichBody_orphan_eq]
      exact horph
    · intro reg' hd'
      rw [enrichTelemetry_ok ev reg fresh device hd,
        enrichTelemetry_ok ev reg' fresh device (hd'.trans hd)]
      rw [enrichBody_indep ev reg' reg fresh device horph]

/-- Sample normalized event for the C3 witness: the input already carries a
patient id. -/
def sampleEv3 : NormalizedTelemetryEvent :=
  { event_id := "evt-n-3", event_type := "telemetry.normalized", version := some "1.0.0"
    timestamp := "t", source_event_id := some "evt-r-3", device_id := "D3"
    patient_id := some "P-input", vitals := "v", validation_status := none
    trace_id := some "trace-3" }

/-- Sample device for the C3 witness, mapped to patient P-dev. -/
def sampleDev3 : Device :=
  { device_id := "D3", device_type := none, patient_id := some "P-dev", status := none }

/-- Sample registry lookups for the C3 witness. -/
def sampleReg3 : RegistryLookups :=
  { getDevice := Except.ok (some sampleDev3)
    getPatient := fun _ => Except.ok none
    getThresholdProfile := fun _ _ => Except.ok none }

/-- Sample fresh values for the C3 witness. -/
def sampleFresh3 : EnrichFresh := { eventId := "evt-e-3", traceUuid := "u-3", now := "t2" }

/-- C3 (witness): a device mapped to patient P-dev makes the enriched event
adopt P-dev even though the input carried P-input. -/
theorem c3_witness :
    (enrichBody sampleEv3 sampleReg3 sampleFresh3 (some sampleDev3)).patient_id = some "P-dev"
    ∧ (enrichBody sampleEv3 sampleReg3 sampleFresh3 (some sampleDev3)).orphan = false :=
  (c3_patient_resolution sampleEv3 sampleReg3 sampleFresh3).1 sampleDev3 rfl rfl _ rfl

/-- C4: every enriched event emitted with orphan=true carries neither a
patientProfile nor thresholds (both fields are absent). -/
theorem c4_orphan_no_profiles (ev : NormalizedTelemetryEvent) (reg : RegistryLookups)
    (fresh : EnrichFresh) (out : EnrichedTelemetryEvent)
    (h : enrichTelemetry ev reg fresh = Except.ok out) (ho : out.orphan = true) :
    out.patientProfile = none ∧ out.thresholds = none := by
  obtain ⟨device, hd, hout⟩ := enrichTelemetry_out ev reg fresh out h
  subst hout
  rw [enrichBody_orphan_eq] at ho
  exact ⟨(enrichBody_orphan_fields ev reg fresh device ho).1,
    (enrichBody_orphan_fields ev reg fresh device ho).2.1⟩

/-- Sample normalized event for the C4 witness: no patient id anywhere. -/
def sampleEv4 : NormalizedTelemetryEvent :=
  { event_id := "evt-n-4", event_type := "telemetry.normalized", version := some "1.0.0"
    timestamp := "t", source_event_id := some "evt-r-4", device_id := "D4"
    patient_id := none, vitals := "v", validation_status := none
    trace_id := some "trace-4" }

/-- Sample registry lookups for the C4 witness: the device is unknown. -/
def sampleReg4 : RegistryLookups :=
  { getDevice := Except.ok none
    getPatient := fun _ => Except.ok none
    getThresholdProfile := fun _ _ => Except.ok none }

/-- Sample fresh values for the C4 witness. -/
def sampleFresh4 : EnrichFresh := { eventId := "evt-e-4", traceUuid := "u-4", now := "t2" }

/-- C4 (witness): a concrete orphan event (unknown device, no input
patient_id) has no patientProfile and no thresholds. -/
theorem c4_witness :
    (enrichBody sampleEv4 sampleReg4 sampleFresh4 none).patientProfile = none
    ∧ (enrichBody sampleEv4 sampleReg4 sampleFresh4 none).thresholds = none :=
  c4_orphan_no_profiles sampleEv4 sampleReg4 sampleFresh4 _ rfl rfl

/-- C5: every enriched event the Enricher emits has source_event_id equal to
the event_id of the consumed normalized input event. -/
theorem c5_source_event_id (ev : NormalizedTelemetryEvent) (reg : RegistryLookups)
    (fresh : EnrichFresh) (out : EnrichedTelemetryEvent)
    (h : enrichTelemetry ev reg fresh = Except.ok out) :
    out.source_event_id = ev.event_id := by
  obtain ⟨device, hd, hout⟩ := enrichTelemetry_out ev reg fresh out h
  subst hout
  rfl

/-- Sample normalized event for the C5 witness. -/
def sampleEv5 : NormalizedTelemetryEvent :=
  { event_id := "evt-n-5", event_type := "telemetry.normalized", version := some "1.0.0"
    timestamp := "t", source_event_id := some "evt-r-5", device_id := "D5"
    patient_id := none, vitals := "v", validation_status := none
    trace_id := some "trace-5" }

/-- Sample registry lookups for the C5 witness. -/
def sampleReg5 : RegistryLookups :=
  { getDevice := Except.ok none
    getPatient := fun _ => Except.ok none
    getThresholdProfile := fun _ _ => Except.ok none }

/-- Sample fresh values for the C5 witness. -/
def sampleFresh5 : EnrichFresh := { eventId := "evt-e-5", traceUuid := "u-5", now := "t2" }

/-- C5 (witness): the linkage at a concrete input. -/
theorem c5_witness :
    (enrichBody sampleEv5 sampleReg5 sampleFresh5 none).source_event_id = "evt-n-5" :=
  c5_source_event_id sampleEv5 sampleReg5 sampleFresh5 _ rfl

/-- A retry loop whose every attempt throws `e` ends by throwing `e`. -/
theorem retryLoop_all_error (op : Nat → Except String α) (e : String)
    (h : ∀ n, op n = Except.error e) :
    ∀ fuel attempt last, retryLoop op attempt last (fuel + 1) = Except.error e := by
  intro fuel
  induction fuel with
  | zero =>
    intro attempt last
    unfold retryLoop
    rw [h attempt]
    rfl
  | succ m ih =>
    intro attempt last
    unfold retryLoop
    rw [h attempt]
    exact ih (attempt + 1) e

/-- C6: for a lineage originating at the Gateway, the trace_id minted by
transformToKafkaEvent is carried verbatim onto the normalized event (spec-
modelled Normalizer envelope) and onto the enriched event: each stage's
output trace_id equals its input's trace_id. -/
theorem c6_trace_propagation (dto : Gateway.TelemetryDto) (uuidE uuidT now : String)
    (raw : Gateway.RawTelemetryEvent)
    (hraw : Gateway.transformToKafkaEvent dto uuidE uuidT now = Except.ok raw)
    (nid vit : String) (vs : Option String) (nts : String)
    (reg : RegistryLookups) (fresh : EnrichFresh) (out : EnrichedTelemetryEvent)
    (henr : enrichTelemetry (normalizeEnvelope raw nid vit vs nts) reg fresh = Except.ok out) :
    raw.trace_id = "trace_" ++ uuidT
    ∧ (normalizeEnvelope raw nid vit vs nts).trace_id = some raw.trace_id
    ∧ out.trace_id = raw.trace_id := by
  have htrace : raw.trace_id = "trace_" ++ uuidT := by
    unfold Gateway.transformToKafkaEvent at hraw
    by_cases hm : (Gateway.dtoMeasurements dto).isEmpty
    · rw [if_pos hm] at hraw
      exact absurd hraw (by simp)
    · rw [if_neg hm] at hraw
      injection hraw with hraw
      rw [← hraw]
  refine ⟨htrace, rfl, ?_⟩
  obtain ⟨device, hd, hout⟩ := enrichTelemetry_out _ reg fresh out henr
  subst hout
  rw [enrichBody_trace_id]
  have hne : (raw.trace_id == "") = false := by
    rw [htrace]
    exact beq_eq_false_iff_ne.mpr (trace_append_ne_empty uuidT)
  show (if truthy (some raw.trace_id) then (some raw.trace_id).getD ""
    else "trace_" ++ fresh.traceUuid) = raw.trace_id
  simp [truthy, hne]

/-- Sample ingest request for the C6 witness. -/
def sampleDto6 : Gateway.TelemetryDto :=
  { deviceId := "D6", timestamp := some "ts6", hr := some 72, spo2 := none
    temp := none, battery := none, firmware := none }

/-- Raw event the Gateway builds from sampleDto6 with uuids u-e6 / u-t6. -/
def sampleRaw6 : Gateway.RawTelemetryEvent :=
  { event_id := "evt_u-e6", trace_id := "trace_u-t6", event_type := "telemetry.raw"
    version := "1.0.0", timestamp := "ts6", device_id := "D6"
    measurements := [{ metric := "heart_rate", value := 72, unit := "bpm" }]
    battery_level := none, firmware_version := none }

/-- Sample registry lookups for the C6 witness. -/
def sampleReg6 : RegistryLookups :=
  { getDevice := Except.ok none
    getPatient := fun _ => Except.ok none
    getThresholdProfile := fun _ _ => Except.ok none }

/-- Sample fresh values for the C6 witness. -/
def sampleFresh6 : EnrichFresh := { eventId := "evt-e-6", traceUuid := "u-6", now := "t2" }

/-- C6 (witness): trace `trace_u-t6` minted at the Gateway appears verbatim
on the raw, normalized and enriched events of the lineage. -/
theorem c6_witness :
    sampleRaw6.trace_id = "trace_" ++ "u-t6"
    ∧ (normalizeEnvelope sampleRaw6 "evt-n-6" "v" none "t1").trace_id = some sampleRaw6.trace_id
    ∧ (enrichBody (normalizeEnvelope sampleRaw6 "evt-n-6" "v" none "t1")
        sampleReg6 sampleFresh6 none).trace_id = sampleRaw6.trace_id :=
  c6_trace_propagation sampleDto6 "u-e6" "u-t6" "t0" sampleRaw6 rfl "evt-n-6" "v" none "t1"
    sampleReg6 sampleFresh6 _ rfl

/-- C7: with device verification enabled, a Registry that is unreachable —
the gRPC call errs, or the client is not connected — makes verifyDevice
return true (the Gateway fails open and accepts the event); verification
fails only when verification is enabled, the client connected, and the
Registry responded with a non-success status; and an unverified device makes
processTelemetry reject with the device-not-found error. -/
theorem c7_fail_open (enabled connected : Bool) (msg : String) (s : Nat)
    (rpc : Gateway.VerifyRpc) (dto : Gateway.TelemetryDto)
    (produce : Gateway.RawTelemetryEvent → Except String Unit) (uE uT now : String) :
    Gateway.verifyDevice enabled connected (Gateway.VerifyRpc.grpcError msg) = true
    ∧ Gateway.verifyDevice enabled false rpc = true
    ∧ (Gateway.verifyDevice enabled connected (Gateway.VerifyRpc.response s) = false
        ↔ enabled = true ∧ connected = true ∧ s ≠ 1)
    ∧ Gateway.processTelemetry dto false produce uE uT now
        = Except.error ("Device " ++ dto.deviceId ++ " not found in registry") := by
  refine ⟨?_, ?_, ?_, ?_⟩
  · cases enabled <;> cases connected <;> simp [Gateway.verifyDevice]
  · cases enabled <;> simp [Gateway.verifyDevice]
  · cases enabled <;> cases connected <;>
      simp [Gateway.verifyDevice, Nat.beq_eq_true_eq, beq_eq_false_iff_ne]
  · simp [Gateway.processTelemetry]

/-- C7 (witness): a concrete unreachable-registry ingest is accepted while a
concrete not-found response is rejected. -/
theorem c7_witness :
    Gateway.verifyDevice true true (Gateway.VerifyRpc.grpcError "14 UNAVAILABLE") = true
    ∧ (Gateway.verifyDevice true true (Gateway.VerifyRpc.response 2) = false
        ↔ true = true ∧ true = true ∧ (2 : Nat) ≠ 1) :=
  ⟨(c7_fail_open true true "14 UNAVAILABLE" 2 (Gateway.VerifyRpc.response 2)
      { deviceId := "D7", timestamp := none, hr := none, spo2 := none, temp := none
        battery := none, firmware := none }
      (fun _ => Except.ok ()) "u1" "u2" "t0").1,
    (c7_fail_open true true "14 UNAVAILABLE" 2 (Gateway.VerifyRpc.response 2)
      { deviceId := "D7", timestamp := none, hr := none, spo2 := none, temp := none
        battery := none, firmware := none }
      (fun _ => Except.ok ()) "u1" "u2" "t0").2.2.1⟩

/-- Sample ingest request for the C8 theorems (one metric present). -/
def sampleDto8 : Gateway.TelemetryDto :=
  { deviceId := "D8", timestamp := some "2024-01-15T10:30:00.000Z", hr := some 72
    spo2 := none, temp := none, battery := none, firmware := none }

/-- Sample ingest request whose metrics object is empty (validation
failure). -/
def sampleDto8v : Gateway.TelemetryDto :=
  { deviceId := "D8", timestamp := some "2024-01-15T10:30:00.000Z", hr := none
    spo2 := none, temp := none, battery := none, firmware := none }

/-- Placeholder raw event used to instantiate the C8 theorem. -/
def sampleRaw8 : Gateway.RawTelemetryEvent :=
  { event_id := "evt_u-e8", trace_id := "trace_u-t8", event_type := "telemetry.raw"
    version := "1.0.0", timestamp := "2024-01-15T10:30:00.000Z", device_id := "D8"
    measurements := [{ metric := "heart_rate", value := 72, unit := "bpm" }]
    battery_level := none, firmware_version := none }

/-- C8 (counterexample): when publication to the raw topic fails after all
retries, the HTTP caller receives a 400 response — exactly the same status
a validation failure receives — not an internal_error: the HTTP surface
does not reserve 400 for validation failures. -/
theorem c8_counterexample :
    (Gateway.receiveTelemetry (Gateway.processTelemetry sampleDto8 true
      (fun _ => Except.error "Failed to produce event to Kafka") "u-e8" "u-t8" "t0")).status
      = 400
    ∧ (Gateway.receiveTelemetry (Gateway.processTelemetry sampleDto8v true
      (fun _ => Except.ok ()) "u-e8" "u-t8" "t0")).status = 400 :=
  ⟨rfl, rfl⟩

/-- C8 (amended): a publish that fails after all retries propagates its
error to processTelemetry, so the caller never receives a success
acknowledgement: the RPC surface maps such errors (which contain neither
"not found" nor "validation") to status internal_error = 4 with an empty
event_id, while the HTTP surface maps every failure — publish failures
included — to 400 {success:false, message}. -/
theorem c8_amended_error_surfaces (dto : Gateway.TelemetryDto)
    (produce : Gateway.RawTelemetryEvent → Except String Unit)
    (send : Nat → Except String Unit) (uE uT now e : String)
    (ev : Gateway.RawTelemetryEvent) :
    Gateway.produceRawTelemetry false send = Except.error "Kafka producer is not connected"
    ∧ ((∀ n, send n = Except.error e) →
        Gateway.produceRawTelemetry true send = Except.error e)
    ∧ (Gateway.transformToKafkaEvent dto uE uT now = Except.ok ev →
        produce ev = Except.error e →
        Gateway.processTelemetry dto true produce uE uT now = Except.error e)
    ∧ Gateway.receiveTelemetry (Except.error e)
        = { status := 400, success := false, eventId := none, message := e }
    ∧ (Gateway.messageIncludes e "not found" = false →
        Gateway.messageIncludes e "validation" = false →
        Gateway.sendMeasurements (Except.error e)
          = { status := 4, message := e, event_id := "" }) := by
  refine ⟨?_, ?_, ?_, rfl, ?_⟩
  · simp [Gateway.produceRawTelemetry]
  · intro h
    show retryLoop send 1 "Failed to produce event to Kafka" 3 = Except.error e
    exact retryLoop_all_error send e h 2 1 _
  · intro ht hp
    simp [Gateway.processTelemetry, ht, hp]
  · intro h1 h2
    simp [Gateway.sendMeasurements, Gateway.classifyGrpcError, h1, h2]

/-- C8 (witness): the producer's terminal error surfaces as RPC status 4. -/
theorem c8_witness :
    Gateway.produceRawTelemetry true (fun _ => Except.error "Failed to produce event to Kafka")
      = Except.error "Failed to produce event to Kafka"
    ∧ Gateway.sendMeasurements (Except.error "Failed to produce event to Kafka")
      = { status := 4, message := "Failed to produce event to Kafka", event_id := "" } := by
  have h := c8_amended_error_surfaces sampleDto8
    (fun _ => Except.error "Failed to produce event to Kafka")
    (fun _ => Except.error "Failed to produce event to Kafka")
    "u-e8" "u-t8" "t0" "Failed to produce event to Kafka" sampleRaw8
  exact ⟨h.2.1 (fun _ => rfl), h.2.2.2.2 (by decide) (by decide)⟩

/-- C9: the gateway's Kafka producer is configured idempotent with bounded
in-flight requests (1), and its broker-retry policy performs up to 8
retries with exponential backoff: the first delay is 100 ms, each subsequent
delay doubles, and every delay is capped at 30 s. -/
theorem c9_producer_retry_config :
    Gateway.gatewayProducerConfig.idempotent = true
    ∧ Gateway.gatewayProducerConfig.maxInFlightRequests = 1
    ∧ Gateway.gatewayKafkaRetryConfig.retries = 8
    ∧ Gateway.kafkaRetryTime Gateway.gatewayKafkaRetryConfig 0 = 100
    ∧ (∀ n, Gateway.kafkaRetryTime Gateway.gatewayKafkaRetryConfig (n + 1)
        = min (2 * Gateway.kafkaRetryTime Gateway.gatewayKafkaRetryConfig n) 30000)
    ∧ (∀ n, Gateway.kafkaRetryTime Gateway.gatewayKafkaRetryConfig n ≤ 30000) := by
  refine ⟨rfl, rfl, rfl, rfl, ?_, ?_⟩
  · intro n
    show min (100 * 2 ^ (n + 1)) 30000 = min (2 * min (100 * 2 ^ n) 30000) 30000
    rw [pow_succ, ← mul_assoc]
    generalize 100 * 2 ^ n = c
    omega
  · intro n
    exact min_le_right _ _

/-- C10: a consumed normalized event without a (truthy) trace_id does not
make the Enricher fail — whenever getDevice resolves, an enriched event is
emitted — and the emitted event carries the freshly minted
`trace_<uuid>` identifier; in every case the emitted trace_id is
nonempty. -/
theorem c10_trace_minted_when_missing (ev : NormalizedTelemetryEvent)
    (reg : RegistryLookups) (fresh : EnrichFresh) :
    (∀ device, reg.getDevice = Except.ok device →
      enrichTelemetry ev reg fresh = Except.ok (enrichBody ev reg fresh device))
    ∧ (∀ out, enrichTelemetry ev reg fresh = Except.ok out →
        (truthy ev.trace_id = false → out.trace_id = "trace_" ++ fresh.traceUuid)
        ∧ out.trace_id ≠ "") := by
  refine ⟨fun device hd => enrichTelemetry_ok ev reg fresh device hd, ?_⟩
  intro out hout
  obtain ⟨device, hd, hEq⟩ := enrichTelemetry_out ev reg fresh out hout
  subst hEq
  rw [enrichBody_trace_id]
  constructor
  · intro hfalse
    rw [hfalse]
    simp
  · cases hev : ev.trace_id with
    | none =>
      simp [truthy]
      exact trace_append_ne_empty fresh.traceUuid
    | some s =>
      by_cases hs : s = ""
      · subst hs
        simp [truthy]
        exact trace_append_ne_empty fresh.traceUuid
      · simp [truthy, hs]

/-- Sample normalized event for the C10 witness: no trace_id at all. -/
def sampleEv10 : NormalizedTelemetryEvent :=
  { event_id := "evt-n-10", event_type := "telemetry.normalized", version := some "1.0.0"
    timestamp := "t", source_event_id := some "evt-r-10", device_id := "D10"
    patient_id := none, vitals := "v", validation_status := none, trace_id := none }

/-- Sample registry lookups for the C10 witness. -/
def sampleReg10 : RegistryLookups :=
  { getDevice := Except.ok none
    getPatient := fun _ => Except.ok none
    getThresholdProfile := fun _ _ => Except.ok none }

/-- Sample fresh values for the C10 witness. -/
def sampleFresh10 : EnrichFresh := { eventId := "evt-e-10", traceUuid := "u-10", now := "t2" }

/-- C10 (witness): a trace-less input is enriched and receives the minted
trace identifier. -/
theorem c10_witness :
    enrichTelemetry sampleEv10 sampleReg10 sampleFresh10
      = Except.ok (enrichBody sampleEv10 sampleReg10 sampleFresh10 none)
    ∧ (enrichBody sampleEv10 sampleReg10 sampleFresh10 none).trace_id = "trace_" ++ "u-10" := by
  have h := c10_trace_minted_when_missing sampleEv10 sampleReg10 sampleFresh10
  have hok := h.1 none rfl
  exact ⟨hok, (h.2 _ hok).1 rfl⟩

end Patients
